import Mathlib

/-!
Shallow embedding of `src/boomi-mcp-server.js`: a thin Express proxy in
front of the Boomi REST API.  JavaScript/JSON values are modelled by
`JSVal`; each Express route handler becomes a pure function from its
request parameters and an upstream oracle to the HTTP response it sends
together with the list of upstream requests it issued.
-/

/-- A JSON/JavaScript value as seen by the proxy (no `undefined`
constructor: absence of an object field is modelled by `Option`). -/
inductive JSVal : Type where
  | null : JSVal
  | bool : Bool → JSVal
  | num : Int → JSVal
  | str : String → JSVal
  | arr : List JSVal → JSVal
  | obj : List (String × JSVal) → JSVal

/-- JavaScript truthiness of a defined value: `null`, `false`, `0` and
`""` are falsy; every array and object is truthy. -/
def truthy : JSVal → Bool
  | .null => false
  | .bool b => b
  | .num n => n != 0
  | .str s => s != ""
  | .arr _ => true
  | .obj _ => true

/-- Property access `v.k`: on an object, the field's value when the key
is present (`none` plays the role of `undefined`); on any other value,
`undefined`. -/
def getField : JSVal → String → Option JSVal
  | .obj fields, k => fields.lookup k
  | _, _ => none

/-- JavaScript `a || b` where `a` is a possibly-undefined value:
the left operand when it is defined and truthy, otherwise `b`. -/
def jsOr (a : Option JSVal) (b : JSVal) : JSVal :=
  match a with
  | some v => if truthy v then v else b
  | none => b

/-- Truthiness of a possibly-undefined string parameter: `!x` in the
credential checks is true exactly when the parameter is absent or `""`. -/
def strTruthy (o : Option String) : Bool :=
  match o with
  | some s => s != ""
  | none => false

mutual

/-- JavaScript string conversion as used by template literals
(backtick interpolation of `deployment.id`). -/
def jsToStr : JSVal → String
  | .null => "null"
  | .bool b => if b then "true" else "false"
  | .num n => toString n
  | .str s => s
  | .arr xs => jsArrToStr xs
  | .obj _ => "[object Object]"

/-- Array-to-string: elements joined by `,`, with `null` elements
rendered as the empty string (JavaScript `Array.prototype.join`). -/
def jsArrToStr : List JSVal → String
  | [] => ""
  | [x] => match x with
    | .null => ""
    | v => jsToStr v
  | x :: xs =>
    (match x with
     | .null => ""
     | v => jsToStr v) ++ "," ++ jsArrToStr xs

end

/-- Interpolation of a possibly-undefined value into a template
literal: an absent field prints as `"undefined"`. -/
def jsOptToStr (o : Option JSVal) : String :=
  match o with
  | some v => jsToStr v
  | none => "undefined"

/-- The response of an upstream call as attached to an axios error
(`error.response`), present only when the upstream answered. -/
structure UpResponse : Type where
  status : Nat
  data : JSVal

/-- An axios failure: a local message, plus the upstream response when
the upstream answered with a non-2xx status (absent on network error). -/
structure AxiosError : Type where
  message : String
  response : Option UpResponse

/-- An upstream HTTP request issued by the proxy. -/
structure UpReq : Type where
  method : String
  url : String
  body : JSVal

/-- The response the proxy sends to its own caller. -/
structure HttpResponse : Type where
  status : Nat
  body : JSVal

/-- The upstream oracle: what each upstream call returns (success data,
or an axios error) in the run being modelled. -/
def Upstream : Type := UpReq → Except AxiosError JSVal

/-- The per-request credential parameters (query or body); `none`
models an absent parameter. -/
structure Creds : Type where
  accountId : Option String
  username : Option String
  password : Option String
deriving DecidableEq

/-- `if (!accountId || !username || !password)`: the guard of every
protected route. -/
def credsMissing (c : Creds) : Bool :=
  !(strTruthy c.accountId && strTruthy c.username && strTruthy c.password)

/-- The 400 response of the credential guard. -/
def missingCredsResponse : HttpResponse :=
  ⟨400, .obj [("error", .str "Missing required authentication parameters")]⟩

/-- `https://api.boomi.com/api/rest/v1/` with the account id appended. -/
def getBoomiApiUrl (accountId : String) : String :=
  "https://api.boomi.com/api/rest/v1/" ++ accountId

/-- The catch-branch of every route:
`res.status(error.response?.status || 500).json(\x7b error:
error.response?.data || error.message \x7d)`. -/
def errorResponse (e : AxiosError) : HttpResponse :=
  { status :=
      match e.response with
      | some r => if r.status != 0 then r.status else 500
      | none => 500
    body := .obj [("error",
      match e.response with
      | some r => if truthy r.data then r.data else .str e.message
      | none => .str e.message)] }

/-- `isListener` as derived by the deployment-type route:
`deployment.listenerStatus !== undefined`. -/
def typeIsListener (d : JSVal) : Bool :=
  (getField d "listenerStatus").isSome

/-- `isScheduler`: `deployment.scheduleStatus !== undefined`. -/
def typeIsScheduler (d : JSVal) : Bool :=
  (getField d "scheduleStatus").isSome

/-- `status`: `deployment.listenerStatus || deployment.scheduleStatus ||
'N/A'` (JavaScript `||`, i.e. truthiness-based selection). -/
def typeStatus (d : JSVal) : JSVal :=
  jsOr (getField d "listenerStatus") (jsOr (getField d "scheduleStatus") (.str "N/A"))

/-- The derived type view returned by `/api/deployment/:id/type`. -/
def deploymentTypeView (d : JSVal) : JSVal :=
  .obj [("isListener", .bool (typeIsListener d)),
        ("isScheduler", .bool (typeIsScheduler d)),
        ("status", typeStatus d),
        ("deploymentDetails", d)]

/-- The summary query request of the deployments route: `POST
.../ProcessDeployment/query`, filtered by `processId` when that query
parameter is truthy, else the unfiltered query. -/
def deploymentsQueryReq (accountId : String) (processId : Option String) : UpReq :=
  ⟨"POST", getBoomiApiUrl accountId ++ "/ProcessDeployment/query",
    if strTruthy processId then
      .obj [("processIds", .arr [.str (processId.getD "")])]
    else
      .obj [("QueryFilter", .obj [("expression",
        .obj [("operator", .str "and"), ("nestedExpression", .arr [])])])]⟩

/-- The per-summary detail request: `GET
.../ProcessDeployment/$\x7bdeployment.id\x7d`. -/
def deploymentDetailReq (accountId : String) (d : JSVal) : UpReq :=
  ⟨"GET", getBoomiApiUrl accountId ++ "/ProcessDeployment/" ++ jsOptToStr (getField d "id"),
    .null⟩

/-- `Promise.all` over already-determined task outcomes: the list of all
values when every task fulfilled, else a rejection. -/
def promiseAll {E A : Type} : List (Except E A) → Except E (List A)
  | [] => .ok []
  | .error e :: _ => .error e
  | .ok a :: rest =>
    match promiseAll rest with
    | .ok bs => .ok (a :: bs)
    | .error e => .error e

/-- The fan-in of `Promise.all` made explicit: tasks complete in the
order given by `sched`, and each completion writes its value into the
result slot of the task's original index (never into the slot of its
completion rank). -/
def settleSlots {A : Type} (tasks : List A) (sched : List Nat) : List (Option A) :=
  sched.foldl (fun acc i => acc.set i tasks[i]?) (List.replicate tasks.length none)

/-- `GET /api/deployments`: credential guard, summary query, concurrent
per-id detail fetches joined by `Promise.all`, with the catch branch on
any upstream failure.  Returns the response sent and the list of
upstream requests issued. -/
def handleListDeployments (c : Creds) (processId : Option String) (up : Upstream) :
    HttpResponse × List UpReq :=
  if credsMissing c then (missingCredsResponse, [])
  else
    let accountId := c.accountId.getD ""
    let queryReq := deploymentsQueryReq accountId processId
    match up queryReq with
    | .error e => (errorResponse e, [queryReq])
    | .ok data =>
      match data with
      | .arr summaries =>
        let detailReqs := summaries.map (deploymentDetailReq accountId)
        match promiseAll (detailReqs.map up) with
        | .ok details => (⟨200, .arr details⟩, queryReq :: detailReqs)
        | .error e => (errorResponse e, queryReq :: detailReqs)
      | _ =>
        (⟨500, .obj [("error", .str "response.data.map is not a function")]⟩, [queryReq])

/-- `GET /api/deployment/:deploymentId/type`. -/
def handleDeploymentType (deploymentId : String) (c : Creds) (up : Upstream) :
    HttpResponse × List UpReq :=
  if credsMissing c then (missingCredsResponse, [])
  else
    let req : UpReq :=
      ⟨"GET", getBoomiApiUrl (c.accountId.getD "") ++ "/ProcessDeployment/" ++ deploymentId,
        .null⟩
    match up req with
    | .error e => (errorResponse e, [req])
    | .ok data => (⟨200, deploymentTypeView data⟩, [req])

/-- The 400 body of an invalid listener action. -/
def invalidListenerActionResponse : HttpResponse :=
  ⟨400, .obj [("error", .str "Action must be enable or disable")]⟩

/-- The 400 body of an invalid scheduler action. -/
def invalidSchedulerActionResponse : HttpResponse :=
  ⟨400, .obj [("error", .str "Action must be pause or resume")]⟩

/-- The upstream request of the listener toggle: `POST
.../ProcessDeployment/:id/listener/:action` with an empty object body. -/
def listenerToggleReq (accountId deploymentId action : String) : UpReq :=
  ⟨"POST",
    getBoomiApiUrl accountId ++ "/ProcessDeployment/" ++ deploymentId ++ "/listener/" ++ action,
    .obj []⟩

/-- `POST /api/deployment/:deploymentId/listener/:action`. -/
def handleListenerToggle (deploymentId action : String) (c : Creds) (up : Upstream) :
    HttpResponse × List UpReq :=
  if credsMissing c then (missingCredsResponse, [])
  else if action ∉ (["enable", "disable"] : List String) then (invalidListenerActionResponse, [])
  else
    let req := listenerToggleReq (c.accountId.getD "") deploymentId action
    match up req with
    | .error e => (errorResponse e, [req])
    | .ok data =>
      (⟨200, .obj [("success", .bool true),
                   ("message", .str ("Listener " ++ action ++ "d successfully")),
                   ("deploymentId", .str deploymentId),
                   ("response", data)]⟩, [req])

/-- The upstream request of the scheduler toggle: `POST
.../ProcessDeployment/:id/schedule/:action` with an empty object body. -/
def schedulerToggleReq (accountId deploymentId action : String) : UpReq :=
  ⟨"POST",
    getBoomiApiUrl accountId ++ "/ProcessDeployment/" ++ deploymentId ++ "/schedule/" ++ action,
    .obj []⟩

/-- `POST /api/deployment/:deploymentId/scheduler/:action`. -/
def handleSchedulerToggle (deploymentId action : String) (c : Creds) (up : Upstream) :
    HttpResponse × List UpReq :=
  if credsMissing c then (missingCredsResponse, [])
  else if action ∉ (["pause", "resume"] : List String) then (invalidSchedulerActionResponse, [])
  else
    let req := schedulerToggleReq (c.accountId.getD "") deploymentId action
    match up req with
    | .error e => (errorResponse e, [req])
    | .ok data =>
      (⟨200, .obj [("success", .bool true),
                   ("message", .str ("Scheduler " ++ action ++ "d successfully")),
                   ("deploymentId", .str deploymentId),
                   ("response", data)]⟩, [req])

/-- The upstream request of the processes route: `POST .../Process/query`
with the unfiltered query body. -/
def processesQueryReq (accountId : String) : UpReq :=
  ⟨"POST", getBoomiApiUrl accountId ++ "/Process/query",
    .obj [("QueryFilter", .obj [("expression",
      .obj [("operator", .str "and"), ("nestedExpression", .arr [])])])]⟩

/-- `GET /api/processes`. -/
def handleListProcesses (c : Creds) (up : Upstream) : HttpResponse × List UpReq :=
  if credsMissing c then (missingCredsResponse, [])
  else
    let req := processesQueryReq (c.accountId.getD "")
    match up req with
    | .error e => (errorResponse e, [req])
    | .ok data => (⟨200, data⟩, [req])

/-- `GET /health`: `now` is the value of `new Date()` at handling time. -/
def handleHealth (now : JSVal) : HttpResponse :=
  ⟨200, .obj [("status", .str "healthy"), ("timestamp", now)]⟩

/-! ## Specification-side definitions, for comparison with the code -/

/-- The status selection as the specification words it: the
`listenerStatus` value when that field is present, else the
`scheduleStatus` value when present, else `"N/A"` — selection by
presence of the key, not by truthiness of its value.  Stated only for
comparison with `typeStatus`. -/
def statusByPresence (d : JSVal) : JSVal :=
  match getField d "listenerStatus" with
  | some v => v
  | none =>
    match getField d "scheduleStatus" with
    | some v => v
    | none => .str "N/A"

/-- The upstream-failure response as the specification words it: the
upstream status when a response is available, else 500; the upstream
body when a response is available, else the local message — selection
by availability, not by truthiness.  Stated only for comparison with
`errorResponse`. -/
def specUpstreamFailureResponse (e : AxiosError) : HttpResponse :=
  { status :=
      match e.response with
      | some r => r.status
      | none => 500
    body := .obj [("error",
      match e.response with
      | some r => r.data
      | none => .str e.message)] }

/-! ## General lemmas about the Promise.all model -/

/-- `Promise.all` over a list of fulfilled tasks resolves with the
values in the original list order. -/
theorem promiseAll_map_ok {E A B : Type} (f : A → B) (xs : List A) :
    promiseAll (E := E) (xs.map (fun x => Except.ok (f x))) = Except.ok (xs.map f) := by
  induction xs with
  | nil => rfl
  | cons x xs ih => simp [promiseAll, ih]

/-- `Promise.all` rejects as soon as one of its tasks rejects. -/
theorem promiseAll_error_of_mem {E A : Type} (rs : List (Except E A)) (e : E)
    (h : Except.error e ∈ rs) : ∃ e2, promiseAll rs = Except.error e2 := by
  induction rs with
  | nil => cases h
  | cons r rest ih =>
    cases r with
    | error e1 => exact ⟨e1, rfl⟩
    | ok a =>
      rcases List.mem_cons.mp h with h1 | h2
      · simp at h1
      · rcases ih h2 with ⟨e2, he2⟩
        refine ⟨e2, ?_⟩
        simp [promiseAll, he2]

/-- Slot `j` of the fan-in fold: written with the value of task `j`
whenever `j`'s completion occurs in the schedule, untouched otherwise —
completions write by original index, never by completion rank. -/
theorem foldl_set_getElem {A : Type} (f : Nat → Option A) (sched : List Nat) :
    ∀ (init : List (Option A)) (j : Nat),
      (sched.foldl (fun acc i => acc.set i (f i)) init)[j]? =
        if j ∈ sched ∧ j < init.length then some (f j) else init[j]? := by
  induction sched with
  | nil => intro init j; simp
  | cons i rest ih =>
    intro init j
    rw [List.foldl_cons, ih, List.length_set, List.getElem?_set]
    by_cases hlen : j < init.length
    · by_cases hjr : j ∈ rest
      · simp [hjr, hlen]
      · by_cases hij : i = j
        · subst hij; simp [hjr, hlen]
        · have hji : ¬j = i := fun h => hij h.symm
          simp [hjr, hlen, hij, hji]
    · have hnone : init[j]? = none := List.getElem?_eq_none (Nat.le_of_not_lt hlen)
      by_cases hij : i = j
      · subst hij; simp [hlen, hnone]
      · have hji : ¬j = i := fun h => hij h.symm
        simp [hlen, hij, hji, hnone]

/-- When the schedule completes every task, the fan-in slots hold
exactly the task values in original order, whatever the completion
order was. -/
theorem settleSlots_eq_map_some {A : Type} (tasks : List A) (sched : List Nat)
    (hcov : ∀ i, i < tasks.length → i ∈ sched) :
    settleSlots tasks sched = tasks.map some := by
  apply List.ext_getElem?
  intro j
  rw [settleSlots, foldl_set_getElem, List.getElem?_map, List.length_replicate]
  by_cases hj : j < tasks.length
  · simp [hcov j hj, hj, List.getElem?_eq_getElem hj]
  · have h1 : tasks[j]? = none := List.getElem?_eq_none (Nat.le_of_not_lt hj)
    simp [hj, h1, List.getElem?_replicate]

/-! ## Deployment-type derivation (claims about status and flags) -/

/-- C1 (counterexample): a record whose `listenerStatus` field is
present but falsy (the empty string) refutes presence-based selection:
the code's truthiness-based `||` chain skips the present field and
yields `"N/A"`, while the claimed presence-based rule would yield the
empty string. -/
theorem typeStatus_presence_counterexample :
    typeStatus (JSVal.obj [("listenerStatus", JSVal.str "")]) = JSVal.str "N/A"
    ∧ statusByPresence (JSVal.obj [("listenerStatus", JSVal.str "")]) = JSVal.str ""
    ∧ typeStatus (JSVal.obj [("listenerStatus", JSVal.str "")])
        ≠ statusByPresence (JSVal.obj [("listenerStatus", JSVal.str "")]) := by
  refine ⟨rfl, rfl, ?_⟩
  intro h
  rw [show typeStatus (JSVal.obj [("listenerStatus", JSVal.str "")]) = JSVal.str "N/A" from rfl,
    show statusByPresence (JSVal.obj [("listenerStatus", JSVal.str "")]) = JSVal.str "" from rfl]
    at h
  simp at h

/-- C1 (amended): the returned `status` is the `listenerStatus` value
when that field is present and truthy, else the `scheduleStatus` value
when that field is present and truthy, else the literal `"N/A"` —
selection is by JavaScript truthiness of the field values. -/
theorem typeStatus_truthy_selection (d : JSVal) :
    (∀ v, getField d "listenerStatus" = some v → truthy v = true → typeStatus d = v)
    ∧ ((∀ v, getField d "listenerStatus" = some v → truthy v = false) →
        ∀ v, getField d "scheduleStatus" = some v → truthy v = true → typeStatus d = v)
    ∧ ((∀ v, getField d "listenerStatus" = some v → truthy v = false) →
        (∀ v, getField d "scheduleStatus" = some v → truthy v = false) →
        typeStatus d = JSVal.str "N/A") := by
  refine ⟨?_, ?_, ?_⟩
  · intro v hv htv
    simp [typeStatus, jsOr, hv, htv]
  · intro hfalsy v hv htv
    cases hl : getField d "listenerStatus" with
    | none => simp [typeStatus, jsOr, hl, hv, htv]
    | some w => simp [typeStatus, jsOr, hl, hfalsy w hl, hv, htv]
  · intro hlf hsf
    cases hl : getField d "listenerStatus" with
    | none =>
      cases hs : getField d "scheduleStatus" with
      | none => simp [typeStatus, jsOr, hl, hs]
      | some w => simp [typeStatus, jsOr, hl, hs, hsf w hs]
    | some w =>
      cases hs : getField d "scheduleStatus" with
      | none => simp [typeStatus, jsOr, hl, hs, hlf w hl]
      | some w2 => simp [typeStatus, jsOr, hl, hs, hlf w hl, hsf w2 hs]

/-- C1 (witness): on a record carrying only a truthy `scheduleStatus`,
the derived status is that value. -/
theorem typeStatus_truthy_selection_witness :
    typeStatus (JSVal.obj [("scheduleStatus", JSVal.str "PAUSED")]) = JSVal.str "PAUSED" :=
  (typeStatus_truthy_selection (JSVal.obj [("scheduleStatus", JSVal.str "PAUSED")])).2.1
    (fun _ hv => by simp [getField, List.lookup] at hv)
    (JSVal.str "PAUSED") rfl rfl

/-- C2: `isListener` is true exactly when the record has a
`listenerStatus` field and `isScheduler` exactly when it has a
`scheduleStatus` field; the concrete instances show that a present but
falsy (`null`) field still sets its flag, and that each flag ignores
the other field. -/
theorem typeFlags_presence (d : JSVal) :
    (typeIsListener d = true ↔ ∃ v, getField d "listenerStatus" = some v)
    ∧ (typeIsScheduler d = true ↔ ∃ v, getField d "scheduleStatus" = some v)
    ∧ typeIsListener (JSVal.obj [("listenerStatus", JSVal.null)]) = true
    ∧ typeIsScheduler (JSVal.obj [("listenerStatus", JSVal.null)]) = false
    ∧ typeIsScheduler (JSVal.obj [("scheduleStatus", JSVal.str "")]) = true
    ∧ typeIsListener (JSVal.obj []) = false := by
  refine ⟨?_, ?_, rfl, rfl, rfl, rfl⟩
  · simp [typeIsListener, Option.isSome_iff_exists]
  · simp [typeIsScheduler, Option.isSome_iff_exists]

/-! ## List-deployments fan-out (order and failure claims) -/

/-- A concrete deployment summary used by the witnesses. -/
def wSummary1 : JSVal := .obj [("id", .str "A")]

/-- A second concrete deployment summary used by the witnesses. -/
def wSummary2 : JSVal := .obj [("id", .str "B")]

/-- Concrete credentials, all three parameters present. -/
def wCreds : Creds := ⟨some "acct", some "user", some "pw"⟩

/-- A fully-successful upstream: the summary query returns the two
summaries; each detail fetch returns the summary wrapped in an array. -/
def wUp : Upstream := fun r =>
  if r.url = "https://api.boomi.com/api/rest/v1/acct/ProcessDeployment/A" then
    .ok (.arr [wSummary1])
  else if r.url = "https://api.boomi.com/api/rest/v1/acct/ProcessDeployment/B" then
    .ok (.arr [wSummary2])
  else
    .ok (.arr [wSummary1, wSummary2])

/-- An upstream error with a 404 response attached. -/
def wErr : AxiosError :=
  ⟨"Request failed with status code 404", some ⟨404, .obj [("message", .str "not found")]⟩⟩

/-- An upstream whose detail fetch for the second summary fails. -/
def wUpFail : Upstream := fun r =>
  if r.url = "https://api.boomi.com/api/rest/v1/acct/ProcessDeployment/A" then
    .ok (.arr [wSummary1])
  else if r.url = "https://api.boomi.com/api/rest/v1/acct/ProcessDeployment/B" then
    .error wErr
  else
    .ok (.arr [wSummary1, wSummary2])

/-- C3: when the summary query returns `summaries` and every detail
fetch succeeds, the final array is the detail records in exactly the
summary order; and the fan-in slot assembly yields that same order
under every completion schedule that completes all tasks. -/
theorem listDeployments_order (c : Creds) (processId : Option String) (up : Upstream)
    (summaries : List JSVal) (detail : JSVal → JSVal) (sched : List Nat)
    (hc : credsMissing c = false)
    (hq : up (deploymentsQueryReq (c.accountId.getD "") processId) = .ok (.arr summaries))
    (hd : ∀ d ∈ summaries, up (deploymentDetailReq (c.accountId.getD "") d) = .ok (detail d))
    (hcov : ∀ i, i < summaries.length → i ∈ sched) :
    (handleListDeployments c processId up).fst = ⟨200, .arr (summaries.map detail)⟩
    ∧ settleSlots (summaries.map detail) sched = (summaries.map detail).map some := by
  constructor
  · have hmap : (summaries.map (deploymentDetailReq (c.accountId.getD ""))).map up
        = summaries.map (fun d => Except.ok (detail d)) := by
      rw [List.map_map]
      exact List.map_congr_left (fun d hd2 => hd d hd2)
    simp [handleListDeployments, hc, hq, hmap, promiseAll_map_ok]
  · exact settleSlots_eq_map_some _ _ (by simpa using hcov)

/-- C3 (witness): with two summaries and detail fetches completing in
reverse order (schedule `[1, 0]`), the result is still the details in
summary order. -/
theorem listDeployments_order_witness :
    (handleListDeployments wCreds none wUp).fst
        = ⟨200, .arr ([wSummary1, wSummary2].map (fun d => JSVal.arr [d]))⟩
    ∧ settleSlots ([wSummary1, wSummary2].map (fun d => JSVal.arr [d])) [1, 0]
        = ([wSummary1, wSummary2].map (fun d => JSVal.arr [d])).map some :=
  listDeployments_order wCreds none wUp [wSummary1, wSummary2] (fun d => JSVal.arr [d]) [1, 0]
    rfl rfl (by intro d hdm; fin_cases hdm <;> rfl) (by decide)

/-- C4: if some summary's detail fetch fails, the whole operation
answers with the catch-branch error response, and the response body is
not an array (no partial results). -/
theorem listDeployments_no_partial (c : Creds) (processId : Option String) (up : Upstream)
    (summaries : List JSVal) (d0 : JSVal) (e : AxiosError)
    (hc : credsMissing c = false)
    (hq : up (deploymentsQueryReq (c.accountId.getD "") processId) = .ok (.arr summaries))
    (hmem : d0 ∈ summaries)
    (he : up (deploymentDetailReq (c.accountId.getD "") d0) = .error e) :
    (∃ e2, (handleListDeployments c processId up).fst = errorResponse e2)
    ∧ ∀ ds, (handleListDeployments c processId up).fst.body ≠ JSVal.arr ds := by
  have hmem2 : Except.error e ∈ (summaries.map (deploymentDetailReq (c.accountId.getD ""))).map up := by
    rw [List.map_map]
    exact List.mem_map.mpr ⟨d0, hmem, he⟩
  rcases promiseAll_error_of_mem _ e hmem2 with ⟨e2, he2⟩
  rw [List.map_map] at he2
  have hfst : (handleListDeployments c processId up).fst = errorResponse e2 := by
    simp [handleListDeployments, hc, hq, he2]
  refine ⟨⟨e2, hfst⟩, ?_⟩
  intro ds hbody
  rw [hfst] at hbody
  simp [errorResponse] at hbody

/-- C4 (witness): with the second detail fetch failing, the response is
the error response of some axios error and carries no array. -/
theorem listDeployments_no_partial_witness :
    (∃ e2, (handleListDeployments wCreds none wUpFail).fst = errorResponse e2)
    ∧ ∀ ds, (handleListDeployments wCreds none wUpFail).fst.body ≠ JSVal.arr ds :=
  listDeployments_no_partial wCreds none wUpFail [wSummary1, wSummary2] wSummary2 wErr
    rfl rfl (by simp) rfl

/-! ## Upstream-failure mapping -/

/-- An upstream error whose attached response has an empty-string body. -/
def wErrEmptyBody : AxiosError :=
  ⟨"Request failed with status code 502", some ⟨502, .str ""⟩⟩

/-- C5 (counterexample): an upstream failure whose response carries an
empty-string body refutes the claim: the code's `||` fallback replaces
the existing (falsy) upstream body with the local error message, while
the claimed availability-based rule would keep the empty body. -/
theorem errorResponse_claim_counterexample :
    errorResponse wErrEmptyBody
        = ⟨502, .obj [("error", .str "Request failed with status code 502")]⟩
    ∧ specUpstreamFailureResponse wErrEmptyBody = ⟨502, .obj [("error", .str "")]⟩
    ∧ errorResponse wErrEmptyBody ≠ specUpstreamFailureResponse wErrEmptyBody := by
  refine ⟨rfl, rfl, ?_⟩
  intro h
  rw [show errorResponse wErrEmptyBody
      = ⟨502, .obj [("error", .str "Request failed with status code 502")]⟩ from rfl,
    show specUpstreamFailureResponse wErrEmptyBody = ⟨502, .obj [("error", .str "")]⟩ from rfl]
    at h
  simp at h

/-- C5 (amended): for an upstream failure whose attached status, when
available, is a genuine (nonzero) HTTP status, the caller receives the
upstream status (500 when no response is available) and a body whose
`error` field is the upstream body when that body is truthy, else the
local error message; and the deployment-type route answers exactly with
this error response when its upstream call fails. -/
theorem errorResponse_mirrors_upstream (e : AxiosError)
    (hpos : ∀ r, e.response = some r → r.status ≠ 0) :
    (e.response = none → errorResponse e = ⟨500, .obj [("error", .str e.message)]⟩)
    ∧ (∀ r, e.response = some r →
        errorResponse e
          = ⟨r.status, .obj [("error", if truthy r.data then r.data else .str e.message)]⟩)
    ∧ ∀ (c : Creds) (deploymentId : String) (up : Upstream),
        credsMissing c = false →
        up ⟨"GET", getBoomiApiUrl (c.accountId.getD "")
              ++ "/ProcessDeployment/" ++ deploymentId, .null⟩ = .error e →
        (handleDeploymentType deploymentId c up).fst = errorResponse e := by
  refine ⟨?_, ?_, ?_⟩
  · intro hn
    simp [errorResponse, hn]
  · intro r hr
    have hs : (r.status != 0) = true := by
      simpa using hpos r hr
    simp [errorResponse, hr, hs]
  · intro c deploymentId up hc hup
    simp [handleDeploymentType, hc, hup]

/-- C5 (witness): the 502-with-empty-body error of the counterexample
instantiates the amended rule: 502 is mirrored and the falsy upstream
body is replaced by the local message. -/
theorem errorResponse_mirrors_upstream_witness :
    errorResponse wErrEmptyBody
      = ⟨502, .obj [("error", .str "Request failed with status code 502")]⟩ :=
  (errorResponse_mirrors_upstream wErrEmptyBody
    (fun r hr => by
      have : r = ⟨502, JSVal.str ""⟩ := by
        injection hr with h
        exact h.symm
      rw [this]
      decide)).2.1 ⟨502, JSVal.str ""⟩ rfl

/-! ## Credential guard -/

/-- C6: on every protected route, a request missing any credential
parameter is answered with the 400 missing-credentials response and no
upstream request is issued. -/
theorem protected_routes_require_creds (c : Creds) (hc : credsMissing c = true) :
    (∀ (processId : Option String) (up : Upstream),
        handleListDeployments c processId up = (missingCredsResponse, []))
    ∧ (∀ (deploymentId : String) (up : Upstream),
        handleDeploymentType deploymentId c up = (missingCredsResponse, []))
    ∧ (∀ (deploymentId action : String) (up : Upstream),
        handleListenerToggle deploymentId action c up = (missingCredsResponse, []))
    ∧ (∀ (deploymentId action : String) (up : Upstream),
        handleSchedulerToggle deploymentId action c up = (missingCredsResponse, []))
    ∧ (∀ up : Upstream, handleListProcesses c up = (missingCredsResponse, []))
    ∧ missingCredsResponse.status = 400 := by
  refine ⟨?_, ?_, ?_, ?_, ?_, rfl⟩ <;> intros <;>
    simp [handleListDeployments, handleDeploymentType, handleListenerToggle,
      handleSchedulerToggle, handleListProcesses, hc]

/-- C6 (witness): a request with no `accountId` to the processes route
gets the 400 missing-credentials response without any upstream call. -/
theorem protected_routes_require_creds_witness :
    handleListProcesses ⟨none, some "user", some "pw"⟩ wUp = (missingCredsResponse, []) :=
  (protected_routes_require_creds ⟨none, some "user", some "pw"⟩ rfl).2.2.2.2.1 wUp

/-! ## Toggle action validation -/

/-- C7: with credentials present, a listener action other than the
literals `"enable"`/`"disable"` is answered 400 invalid-action with no
upstream call, while those two literals are forwarded with the exact
literal in the upstream path and echoed in the success message;
analogously for the scheduler with `"pause"`/`"resume"`. -/
theorem toggle_action_validation (c : Creds) (deploymentId action : String) (up : Upstream)
    (hc : credsMissing c = false) :
    ((action ≠ "enable" ∧ action ≠ "disable") →
        handleListenerToggle deploymentId action c up = (invalidListenerActionResponse, []))
    ∧ ((action = "enable" ∨ action = "disable") →
        (handleListenerToggle deploymentId action c up).snd
            = [listenerToggleReq (c.accountId.getD "") deploymentId action]
          ∧ (listenerToggleReq (c.accountId.getD "") deploymentId action).url
            = getBoomiApiUrl (c.accountId.getD "")
              ++ "/ProcessDeployment/" ++ deploymentId ++ "/listener/" ++ action
          ∧ ∀ data, up (listenerToggleReq (c.accountId.getD "") deploymentId action) = .ok data →
              getField (handleListenerToggle deploymentId action c up).fst.body "message"
                = some (.str ("Listener " ++ action ++ "d successfully")))
    ∧ ((action ≠ "pause" ∧ action ≠ "resume") →
        handleSchedulerToggle deploymentId action c up = (invalidSchedulerActionResponse, []))
    ∧ ((action = "pause" ∨ action = "resume") →
        (handleSchedulerToggle deploymentId action c up).snd
            = [schedulerToggleReq (c.accountId.getD "") deploymentId action]
          ∧ (schedulerToggleReq (c.accountId.getD "") deploymentId action).url
            = getBoomiApiUrl (c.accountId.getD "")
              ++ "/ProcessDeployment/" ++ deploymentId ++ "/schedule/" ++ action
          ∧ ∀ data, up (schedulerToggleReq (c.accountId.getD "") deploymentId action) = .ok data →
              getField (handleSchedulerToggle deploymentId action c up).fst.body "message"
                = some (.str ("Scheduler " ++ action ++ "d successfully")))
    ∧ invalidListenerActionResponse.status = 400
    ∧ invalidSchedulerActionResponse.status = 400 := by
  refine ⟨?_, ?_, ?_, ?_, rfl, rfl⟩
  · intro h
    simp [handleListenerToggle, hc, h.1, h.2]
  · intro h
    have hin : action ∈ (["enable", "disable"] : List String) := by
      rcases h with h | h <;> simp [h]
    refine ⟨by simp [handleListenerToggle, hc, hin]; cases up (listenerToggleReq (c.accountId.getD "") deploymentId action) <;> rfl,
      rfl, ?_⟩
    intro data hdata
    simp [handleListenerToggle, hc, hin, hdata, getField, List.lookup]
  · intro h
    simp [handleSchedulerToggle, hc, h.1, h.2]
  · intro h
    have hin : action ∈ (["pause", "resume"] : List String) := by
      rcases h with h | h <;> simp [h]
    refine ⟨by simp [handleSchedulerToggle, hc, hin]; cases up (schedulerToggleReq (c.accountId.getD "") deploymentId action) <;> rfl,
      rfl, ?_⟩
    intro data hdata
    simp [handleSchedulerToggle, hc, hin, hdata, getField, List.lookup]

/-- C7 (witness): the action `"start"` is rejected by the listener
toggle without an upstream call. -/
theorem toggle_action_validation_witness :
    handleListenerToggle "dep1" "start" wCreds wUp = (invalidListenerActionResponse, []) :=
  (toggle_action_validation wCreds "dep1" "start" wUp rfl).1 (by decide)

/-! ## Health check and guard ordering -/

/-- C8: the health route needs no parameters beyond the handling-time
clock value, answers 200, and its body carries the literal status
`"healthy"` together with a timestamp equal to the time at handling. -/
theorem health_check_shape (now : JSVal) :
    (handleHealth now).status = 200
    ∧ getField (handleHealth now).body "status" = some (.str "healthy")
    ∧ getField (handleHealth now).body "timestamp" = some now := by
  refine ⟨rfl, rfl, ?_⟩
  simp [handleHealth, getField, List.lookup]

/-- C9: a credential supplied as the empty string fails the falsiness
check exactly like an absent one, so every protected route answers the
400 missing-credentials response without an upstream call. -/
theorem empty_credential_is_missing (a u p : Option String) (processId : Option String)
    (deploymentId action : String) (up : Upstream)
    (h : a = some "" ∨ u = some "" ∨ p = some "") :
    credsMissing ⟨a, u, p⟩ = true
    ∧ handleListDeployments ⟨a, u, p⟩ processId up = (missingCredsResponse, [])
    ∧ handleDeploymentType deploymentId ⟨a, u, p⟩ up = (missingCredsResponse, [])
    ∧ handleListenerToggle deploymentId action ⟨a, u, p⟩ up = (missingCredsResponse, [])
    ∧ handleSchedulerToggle deploymentId action ⟨a, u, p⟩ up = (missingCredsResponse, [])
    ∧ handleListProcesses ⟨a, u, p⟩ up = (missingCredsResponse, [])
    ∧ strTruthy (some "") = strTruthy none := by
  have hc : credsMissing ⟨a, u, p⟩ = true := by
    rcases h with h | h | h <;> subst h <;> simp [credsMissing, strTruthy]
  refine ⟨hc, ?_, ?_, ?_, ?_, ?_, rfl⟩ <;>
    simp [handleListDeployments, handleDeploymentType, handleListenerToggle,
      handleSchedulerToggle, handleListProcesses, hc]

/-- C9 (witness): an empty-string `accountId` with the other two
credentials present is rejected by the deployments route with the 400
missing-credentials response and no upstream call. -/
theorem empty_credential_is_missing_witness :
    handleListDeployments ⟨some "", some "user", some "pw"⟩ none wUp
      = (missingCredsResponse, []) :=
  (empty_credential_is_missing (some "") (some "user") (some "pw") none "dep1" "enable" wUp
    (Or.inl rfl)).2.1

/-- C10: on both toggle routes the credential check runs before the
action check: a request missing a credential and carrying an invalid
action gets the missing-credentials response, not the invalid-action
one. -/
theorem toggle_credential_check_first (c : Creds) (deploymentId action : String)
    (up : Upstream) (hc : credsMissing c = true)
    (_ha : action ∉ (["enable", "disable"] : List String)
      ∧ action ∉ (["pause", "resume"] : List String)) :
    handleListenerToggle deploymentId action c up = (missingCredsResponse, [])
    ∧ handleSchedulerToggle deploymentId action c up = (missingCredsResponse, [])
    ∧ (handleListenerToggle deploymentId action c up).fst ≠ invalidListenerActionResponse
    ∧ (handleSchedulerToggle deploymentId action c up).fst ≠ invalidSchedulerActionResponse := by
  have h1 : handleListenerToggle deploymentId action c up = (missingCredsResponse, []) := by
    simp [handleListenerToggle, hc]
  have h2 : handleSchedulerToggle deploymentId action c up = (missingCredsResponse, []) := by
    simp [handleSchedulerToggle, hc]
  refine ⟨h1, h2, ?_, ?_⟩
  · rw [h1]
    intro hne
    simp [missingCredsResponse, invalidListenerActionResponse] at hne
  · rw [h2]
    intro hne
    simp [missingCredsResponse, invalidSchedulerActionResponse] at hne

/-- C10 (witness): no password and the invalid action `"start"` yield
the missing-credentials response on both toggles. -/
theorem toggle_credential_check_first_witness :
    handleListenerToggle "dep1" "start" ⟨some "acct", some "user", none⟩ wUp
        = (missingCredsResponse, [])
    ∧ handleSchedulerToggle "dep1" "start" ⟨some "acct", some "user", none⟩ wUp
        = (missingCredsResponse, [])
    ∧ (handleListenerToggle "dep1" "start" ⟨some "acct", some "user", none⟩ wUp).fst
        ≠ invalidListenerActionResponse
    ∧ (handleSchedulerToggle "dep1" "start" ⟨some "acct", some "user", none⟩ wUp).fst
        ≠ invalidSchedulerActionResponse :=
  toggle_credential_check_first ⟨some "acct", some "user", none⟩ "dep1" "start" wUp rfl
    (by decide)
